import Mathlib

/-!
Verification of the SimpleHTTPServer event service.

Shallow embedding of the repository layer (`internal/db.go`, `internal/interfaces.go`)
and the HTTP handler layer (`api/eventController.go`), together with models of the
Go runtime pieces they use (`time.Time`, `uuid`, `encoding/json`, Go errors, Go
slices) and of the PostgreSQL `events` table contract
(`migrations/001_create_events_table.sql`).
-/

/-! ## Go runtime primitives -/

/-- Model of Go `time.Time`: an absolute instant plus a location.  `instant = 0`
stands for the zero time (January 1, year 1 UTC); `UTC()` changes only the
location, `Before` compares instants, exactly as in Go. -/
structure GoTime where
  instant : Int
  loc : String
deriving DecidableEq

/-- Go `time.Time.IsZero`: true exactly on the zero time instant. -/
def GoTime.IsZero (t : GoTime) : Bool := t.instant == 0

/-- Go `time.Time.UTC`: same instant, location set to UTC. -/
def GoTime.UTC (t : GoTime) : GoTime := { t with loc := "UTC" }

/-- Go `time.Time.Before`: strict comparison of instants. -/
def GoTime.Before (a b : GoTime) : Bool := a.instant < b.instant

/-- Model of `github.com/google/uuid.UUID`, as the 128-bit value read as a natural. -/
structure UUID where
  val : Nat
deriving DecidableEq

/-- Model of Go `error` values as seen by the callers of this codebase:
`sentinel` is an exported package-level error value (such as `sql.ErrNoRows`),
compared by identity; `errorf` is a fresh message-only error produced by
`errors.New` / `fmt.Errorf` without `%w` (it unwraps to nothing); `wrap` is
`fmt.Errorf` with `%w`, which `errors.Unwrap` peels. -/
inductive GoError where
  | sentinel (name : String)
  | errorf (msg : String)
  | wrap (msg : String) (inner : GoError)
deriving DecidableEq

/-- `database/sql.ErrNoRows`. -/
def sqlErrNoRows : GoError := .sentinel "sql: no rows in result set"

/-- `context.DeadlineExceeded`. -/
def ctxDeadlineExceeded : GoError := .sentinel "context deadline exceeded"

/-- `context.Canceled`. -/
def ctxCanceled : GoError := .sentinel "context canceled"

/-- The sentinel error values available to callers of the repository: the
`internal` package exports no error values or error types of its own, so the
only sentinels a caller can test with `errors.Is` on this path come from the
standard library. -/
def exportedSentinels : List GoError := [sqlErrNoRows, ctxDeadlineExceeded, ctxCanceled]

/-- Model of Go `errors.Is`: the target matches the error itself or anything
reachable by unwrapping `%w` wraps. -/
def errorsIs : GoError → GoError → Bool
  | .wrap m inner, target => (GoError.wrap m inner == target) || errorsIs inner target
  | e, target => e == target

/-- Model of a Go slice: `none` is the nil slice, `some l` a non-nil slice with
elements `l`.  The distinction matters only for JSON encoding (`nil` encodes as
`null`, an empty non-nil slice as `[]`). -/
abbrev GoSlice (α : Type) := Option (List α)

/-- Go `append` on a slice: appending to the nil slice yields a non-nil slice. -/
def goAppend {α : Type} (s : GoSlice α) (a : α) : GoSlice α := some (s.getD [] ++ [a])

/-- The elements of a Go slice (`len` and iteration see nil as empty). -/
def GoSlice.toList {α : Type} (s : GoSlice α) : List α := s.getD []

/-- Go `len` of a slice. -/
def GoSlice.len {α : Type} (s : GoSlice α) : Nat := s.toList.length

/-- Go `unicode.IsSpace` on the characters relevant to `strings.TrimSpace`
(ASCII whitespace plus NEL and NBSP; further Unicode space characters behave
the same way and are not exercised by this codebase). -/
def goIsSpace (c : Char) : Bool :=
  c == ' ' || c == '\t' || c == '\x0A' || c == '\x0B' || c == '\x0C' ||
    c == '\x0D' || c == '\u0085' || c == ' '

/-- Go `strings.TrimSpace`: drop leading and trailing whitespace. -/
def goTrimSpace (s : String) : String :=
  ⟨((s.data.dropWhile goIsSpace).reverse.dropWhile goIsSpace).reverse⟩

/-- JSON values as produced by `encoding/json`.  `uuid` and `time` leaves stand
for the (injective) string renderings of `uuid.UUID` and `time.Time`; a
`time` leaf whose location is UTC renders with a `Z` suffix. -/
inductive Json where
  | null
  | str (s : String)
  | num (n : Int)
  | bool (b : Bool)
  | uuid (u : UUID)
  | time (t : GoTime)
  | arr (xs : List Json)
  | obj (fields : List (String × Json))

/-! ## Data model (`internal/db.go`) -/

/-- `internal.EventDB`, the row/domain record. -/
structure EventDB where
  ID : UUID
  Title : String
  Description : Option String
  StartTime : GoTime
  EndTime : GoTime
  CreatedAt : GoTime
  UpdatedAt : GoTime
deriving DecidableEq

/-- The state of the `events` table together with the storage generators the
schema uses: `nextId` models `uuid_generate_v4()` producing a fresh identifier,
`now` models `NOW()`, the transaction timestamp used by the `created_at` and
`updated_at` column defaults. -/
structure DbState where
  rows : List EventDB
  nextId : Nat
  now : Int
deriving DecidableEq

/-- Whether the underlying database connection serves a statement or fails it
with a driver/connection error `e` (deadline expiry surfaces this way too). -/
inductive DbOutcome where
  | ok
  | fail (e : GoError)
deriving DecidableEq

/-- Ordering of rows by `start_time`, as requested by `ORDER BY start_time ASC`. -/
def startLE (a b : EventDB) : Prop := a.StartTime.instant ≤ b.StartTime.instant

instance : DecidableRel startLE := fun a b =>
  inferInstanceAs (Decidable (a.StartTime.instant ≤ b.StartTime.instant))

instance : IsTotal EventDB startLE := ⟨fun a b => Int.le_total a.StartTime.instant b.StartTime.instant⟩

instance : IsTrans EventDB startLE := ⟨fun _ _ _ hab hbc => le_trans hab hbc⟩

/-! ## Repository (`internal/db.go`) -/

namespace EventRepository

/-- The SQL text issued by `EventRepository.CreateEvent`. -/
def createEventQuery : String :=
  "INSERT INTO events (title, description, start_time, end_time) VALUES ($1, $2, $3, $4) RETURNING id, title, description, start_time, end_time, created_at, updated_at"

/-- The parameters bound to `$1..$4` by `EventRepository.CreateEvent`:
`event.Title, event.Description, event.StartTime, event.EndTime`. -/
def createEventArgs (event : EventDB) : String × Option String × GoTime × GoTime :=
  (event.Title, event.Description, event.StartTime, event.EndTime)

/-- Execution of the `INSERT ... RETURNING` statement by the database
(`migrations/001_create_events_table.sql`): the row's `id` is generated by the
`uuid_generate_v4()` column default, `created_at` and `updated_at` by the
`NOW()` defaults, and the remaining columns come from the bound parameters. -/
def dbExecCreate (st : DbState) (args : String × Option String × GoTime × GoTime) :
    DbState × EventDB :=
  let row : EventDB :=
    ⟨⟨st.nextId⟩, args.1, args.2.1, args.2.2.1, args.2.2.2, ⟨st.now, "UTC"⟩, ⟨st.now, "UTC"⟩⟩
  ({ rows := st.rows ++ [row], nextId := st.nextId + 1, now := st.now }, row)

/-- `EventRepository.CreateEvent`: issues the insert with only the four
client-supplied columns as parameters and scans the returned row; on a
statement failure it wraps the error as `"failed to create event: %w"`. -/
def CreateEvent (st : DbState) (o : DbOutcome) (event : EventDB) :
    DbState × Except GoError EventDB :=
  match o with
  | .fail e => (st, .error (.wrap "failed to create event" e))
  | .ok =>
    let res := dbExecCreate st (createEventArgs event)
    (res.1, .ok res.2)

/-- `EventRepository.GetEvents`: queries all rows ordered by `start_time`
ascending and scans them into `var events []EventDB` with `append` (so a
result of zero rows leaves the slice nil); a query, scan or iteration failure
is returned wrapped. -/
def GetEvents (st : DbState) (o : DbOutcome) : Except GoError (GoSlice EventDB) :=
  match o with
  | .fail e => .error (.wrap "failed to query events" e)
  | .ok => .ok ((List.insertionSort startLE st.rows).foldl goAppend none)

/-- The `row.Scan` outcome of the `SELECT ... WHERE id = $1` single-row query:
the matching row, `sql.ErrNoRows` when none matches, or the connection/query
error. -/
def queryRowScan (st : DbState) (o : DbOutcome) (id : UUID) : Except GoError EventDB :=
  match o with
  | .fail e => .error e
  | .ok =>
    match st.rows.find? (fun r => r.ID == id) with
    | some row => .ok row
    | none => .error sqlErrNoRows

/-- `EventRepository.GetEventByID`: on `sql.ErrNoRows` it returns a fresh
`fmt.Errorf("event not found")`; any other scan error is wrapped as
`"failed to get event by ID: %w"`. -/
def GetEventByID (st : DbState) (o : DbOutcome) (id : UUID) : Except GoError EventDB :=
  match queryRowScan st o id with
  | .ok event => .ok event
  | .error err =>
    if err == sqlErrNoRows then .error (.errorf "event not found")
    else .error (.wrap "failed to get event by ID" err)

end EventRepository

/-! ## JSON encoding of records (`encoding/json` on `EventDB`) -/

/-- Serialization of an `EventDB` record per its struct tags. A nil
`Description` pointer serializes as `null`. -/
def encodeEvent (e : EventDB) : Json :=
  .obj [("id", .uuid e.ID), ("title", .str e.Title),
        ("description", match e.Description with | some d => .str d | none => .null),
        ("start_time", .time e.StartTime), ("end_time", .time e.EndTime),
        ("created_at", .time e.CreatedAt), ("updated_at", .time e.UpdatedAt)]

/-- Serialization of a `[]EventDB` slice: the nil slice encodes as `null`,
a non-nil slice as a JSON array. -/
def encodeEvents (s : GoSlice EventDB) : Json :=
  match s with
  | none => .null
  | some l => .arr (l.map encodeEvent)

/-! ## uuid.Parse (`github.com/google/uuid`) -/

/-- Hex digit value, as `uuid`'s `xtob` accepts it. -/
def xtob (c : Char) : Option Nat :=
  if '0' ≤ c ∧ c ≤ '9' then some (c.toNat - '0'.toNat)
  else if 'a' ≤ c ∧ c ≤ 'f' then some (c.toNat - 'a'.toNat + 10)
  else if 'A' ≤ c ∧ c ≤ 'F' then some (c.toNat - 'A'.toNat + 10)
  else none

/-- Big-endian value of a list of hex digits; `none` if any is not hex. -/
def hexListToNat (cs : List Char) : Option Nat :=
  cs.foldl (fun acc c =>
    match acc, xtob c with
    | some a, some v => some (a * 16 + v)
    | _, _ => none) (some 0)

/-- The byte positions decoded by `uuid.Parse` in the canonical hyphenated form. -/
def byteStarts : List Nat := [0, 2, 4, 6, 9, 11, 14, 16, 19, 21, 24, 26, 28, 30, 32, 34]

/-- The hyphenated-form decoding step of `uuid.Parse`: hyphens must sit at
offsets 8, 13, 18 and 23, and the sixteen byte positions must be hex pairs
(positions beyond those are not inspected, as in the library). -/
def parseCanonical (cs : List Char) : Option UUID :=
  if cs.get? 8 == some '-' && cs.get? 13 == some '-' &&
      cs.get? 18 == some '-' && cs.get? 23 == some '-' then
    (hexListToNat (byteStarts.foldr (fun x acc => cs.getD x ' ' :: cs.getD (x + 1) ' ' :: acc) [])).map UUID.mk
  else none

/-- Model of `uuid.Parse`: accepts the 36-character canonical form, the
`urn:uuid:`-prefixed form, the surrounded form (first character stripped), and
the 32-character raw hex form; anything else is malformed. -/
def uuidParse (s : String) : Option UUID :=
  let cs := s.data
  if cs.length == 36 then parseCanonical cs
  else if cs.length == 45 then
    if (s.take 9).toLower == "urn:uuid:" then parseCanonical (cs.drop 9) else none
  else if cs.length == 38 then parseCanonical (cs.drop 1)
  else if cs.length == 32 then (hexListToNat cs).map UUID.mk
  else none

/-! ## Request handlers (`api/eventController.go`) -/

/-- An HTTP response as the handlers produce it: status code, `Content-Type`
header, and body.  (For error responses, `http.Error` also appends a newline
and sets `X-Content-Type-Options`; neither is observed by any claim.) -/
structure HttpResponse where
  status : Nat
  contentType : Option String
  body : Json

/-- `http.Error(w, msg, code)`: plain-text error body. -/
def httpError (msg : String) (code : Nat) : HttpResponse :=
  ⟨code, some "text/plain; charset=utf-8", .str msg⟩

/-- `api.createEventInput`, the decoded POST body. -/
structure createEventInput where
  Title : String
  Description : Option String
  StartTime : GoTime
  EndTime : GoTime
deriving DecidableEq

/-- The environment a single `CreateEvent` request observes: the value
`uuid.New()` returns, the instant of `time.Now()`, the database outcome of the
repository call, and what `ctx.Err()` reports after that call. -/
structure CreateEnv where
  freshUUID : UUID
  nowUTC : Int
  dbOutcome : DbOutcome
  ctxErr : Option GoError

/-- The observable effect of one handler invocation: the response written, the
database state afterwards, and whether the repository was called at all. -/
structure HandlerResult where
  resp : HttpResponse
  db : DbState
  repoCalled : Bool

namespace EventController

/-- `EventController.CreateEvent` (POST /events).  `body` is the result of
`json.Decode` with `DisallowUnknownFields` on the request body: `.error msg`
when decoding fails (malformed JSON or an unknown field), `.ok inp` otherwise.
Validation happens in source order; on success the handler builds the record
with `uuid.New()`, `time.Now().UTC()` and UTC-normalized times, calls the
repository, and maps its error via `ctx.Err() == context.DeadlineExceeded`. -/
def CreateEvent (st : DbState) (env : CreateEnv) (body : Except String createEventInput) :
    HandlerResult :=
  match body with
  | .error msg => ⟨httpError ("invalid JSON: " ++ msg) 400, st, false⟩
  | .ok inp =>
    if goTrimSpace inp.Title = "" then
      ⟨httpError "title is required" 400, st, false⟩
    else if inp.Title.utf8ByteSize > 100 then
      ⟨httpError "title must be <= 100 characters" 400, st, false⟩
    else if inp.StartTime.IsZero || inp.EndTime.IsZero then
      ⟨httpError "start_time and end_time are required (RFC3339)" 400, st, false⟩
    else if !(inp.StartTime.Before inp.EndTime) then
      ⟨httpError "start_time must be before end_time" 400, st, false⟩
    else
      let event : EventDB :=
        ⟨env.freshUUID, inp.Title, inp.Description, inp.StartTime.UTC, inp.EndTime.UTC,
          ⟨env.nowUTC, "UTC"⟩, ⟨env.nowUTC, "UTC"⟩⟩
      match EventRepository.CreateEvent st env.dbOutcome event with
      | (st2, .error _) =>
        ⟨if env.ctxErr = some ctxDeadlineExceeded then httpError "Request timeout" 408
          else httpError "Failed to create event" 500, st2, true⟩
      | (st2, .ok created) =>
        ⟨⟨201, some "application/json", encodeEvent created⟩, st2, true⟩

/-- `EventController.GetEvents` (GET /events): delegates to the repository and
serializes the slice it returns; on error, 408 when
`ctx.Err() == context.DeadlineExceeded`, 500 otherwise. -/
def GetEvents (st : DbState) (o : DbOutcome) (ctxErr : Option GoError) : HttpResponse :=
  match EventRepository.GetEvents st o with
  | .error _ =>
    if ctxErr = some ctxDeadlineExceeded then httpError "Request timeout" 408
    else httpError "Failed to get events" 500
  | .ok events => ⟨200, some "application/json", encodeEvents events⟩

/-- `EventController.GetEventByID` (GET /events/{id}): 400 when `uuid.Parse`
fails (repository untouched), 404 on any repository error, 200 with the record
otherwise.  The `Bool` records whether the repository was called. -/
def GetEventByID (st : DbState) (o : DbOutcome) (idStr : String) : HttpResponse × Bool :=
  match uuidParse idStr with
  | none => (httpError "Invalid UUID format" 400, false)
  | some id =>
    match EventRepository.GetEventByID st o id with
    | .error _ => (httpError "Event not found" 404, true)
    | .ok event => (⟨200, some "application/json", encodeEvent event⟩, true)

end EventController

/-! ## General lemmas -/

/-- Folding Go `append` over a list extends the slice's elements on the right,
regardless of nil-ness. -/
theorem toList_foldl_goAppend {α : Type} (l : List α) (s : GoSlice α) :
    GoSlice.toList (l.foldl goAppend s) = s.toList ++ l := by
  induction l generalizing s with
  | nil => simp [GoSlice.toList]
  | cons a t ih =>
    rw [List.foldl_cons, ih]
    simp [goAppend, GoSlice.toList]

/-- A string has at least as many UTF-8 bytes as characters. -/
theorem length_le_utf8ByteSize (s : String) : s.length ≤ s.utf8ByteSize := by
  cases s with
  | mk data =>
    show data.length ≤ String.utf8ByteSize.go data
    induction data with
    | nil => simp [String.utf8ByteSize.go]
    | cons c cs ih =>
      have hpos := Char.utf8Size_pos c
      simp only [List.length_cons, String.utf8ByteSize.go]
      omega

/-! ## Claim C1 -/

/-- Claim C1, as stated, is false: with zero stored rows the repository
returns the nil slice with no error (zero events), and the handler's
`json.Encode` serializes that nil slice as `null`, not as an empty array. -/
theorem c1_empty_list_serializes_null_counterexample :
    EventRepository.GetEvents ⟨[], 0, 0⟩ .ok = .ok (none : GoSlice EventDB)
    ∧ GoSlice.len (none : GoSlice EventDB) = 0
    ∧ EventController.GetEvents ⟨[], 0, 0⟩ .ok none =
        ⟨200, some "application/json", Json.null⟩
    ∧ Json.null ≠ Json.arr [] :=
  ⟨rfl, rfl, rfl, fun h => Json.noConfusion h⟩

/-- Claim C1 amended: when no rows are stored, List responds 200 with
`Content-Type: application/json` and body `null` (the serialization of the
repository's nil slice), not an empty array. -/
theorem c1_amended_empty_list_responds_null (st : DbState) (ctxErr : Option GoError)
    (h : st.rows = []) :
    EventRepository.GetEvents st .ok = .ok (none : GoSlice EventDB)
    ∧ EventController.GetEvents st .ok ctxErr = ⟨200, some "application/json", Json.null⟩ := by
  unfold EventController.GetEvents EventRepository.GetEvents
  rw [h]
  exact ⟨rfl, rfl⟩

/-- Witness for the amended C1 at a concrete empty table. -/
theorem c1_amended_empty_list_responds_null_witness :
    EventRepository.GetEvents ⟨[], 4, 99⟩ .ok = .ok (none : GoSlice EventDB)
    ∧ EventController.GetEvents ⟨[], 4, 99⟩ .ok (some ctxCanceled) =
        ⟨200, some "application/json", Json.null⟩ :=
  c1_amended_empty_list_responds_null ⟨[], 4, 99⟩ (some ctxCanceled) rfl

/-! ## Claim C6 -/

/-- Claim C6: `GetEvents` returns all stored rows (a permutation of the table)
ordered non-decreasing by `start_time`, and on an empty table returns the
empty (nil) sequence with no error. -/
theorem c6_get_events_sorted (st : DbState) :
    ∃ l : GoSlice EventDB, EventRepository.GetEvents st .ok = .ok l
      ∧ l.toList.Perm st.rows
      ∧ l.toList.Sorted startLE
      ∧ (st.rows = [] → l = none ∧ l.len = 0) := by
  refine ⟨(List.insertionSort startLE st.rows).foldl goAppend none, rfl, ?_, ?_, ?_⟩
  · rw [toList_foldl_goAppend]
    simpa [GoSlice.toList] using List.perm_insertionSort startLE st.rows
  · rw [toList_foldl_goAppend]
    simpa [GoSlice.toList] using List.sorted_insertionSort startLE st.rows
  · intro h
    rw [h]
    exact ⟨rfl, rfl⟩

/-- Witness for C6 at a concrete two-row table stored out of order. -/
theorem c6_get_events_sorted_witness :
    ∃ l : GoSlice EventDB,
      EventRepository.GetEvents
          ⟨[⟨⟨2⟩, "b", none, ⟨7, "UTC"⟩, ⟨8, "UTC"⟩, ⟨1, "UTC"⟩, ⟨1, "UTC"⟩⟩,
            ⟨⟨1⟩, "a", none, ⟨5, "UTC"⟩, ⟨6, "UTC"⟩, ⟨1, "UTC"⟩, ⟨1, "UTC"⟩⟩], 3, 9⟩ .ok = .ok l
      ∧ l.toList.Perm
          [⟨⟨2⟩, "b", none, ⟨7, "UTC"⟩, ⟨8, "UTC"⟩, ⟨1, "UTC"⟩, ⟨1, "UTC"⟩⟩,
            ⟨⟨1⟩, "a", none, ⟨5, "UTC"⟩, ⟨6, "UTC"⟩, ⟨1, "UTC"⟩, ⟨1, "UTC"⟩⟩]
      ∧ l.toList.Sorted startLE
      ∧ ([⟨⟨2⟩, "b", none, ⟨7, "UTC"⟩, ⟨8, "UTC"⟩, ⟨1, "UTC"⟩, ⟨1, "UTC"⟩⟩,
            ⟨⟨1⟩, "a", none, ⟨5, "UTC"⟩, ⟨6, "UTC"⟩, ⟨1, "UTC"⟩, ⟨1, "UTC"⟩⟩] =
            ([] : List EventDB) → l = none ∧ l.len = 0) :=
  c6_get_events_sorted
    ⟨[⟨⟨2⟩, "b", none, ⟨7, "UTC"⟩, ⟨8, "UTC"⟩, ⟨1, "UTC"⟩, ⟨1, "UTC"⟩⟩,
      ⟨⟨1⟩, "a", none, ⟨5, "UTC"⟩, ⟨6, "UTC"⟩, ⟨1, "UTC"⟩, ⟨1, "UTC"⟩⟩], 3, 9⟩

/-! ## Claim C4 -/

/-- Claim C4: GetByID responds 400 without touching the repository when the
path identifier fails `uuid.Parse`; it responds 404 on every repository error
(of any kind), and 200 with the encoded record on success. -/
theorem c4_get_by_id_status_mapping (st : DbState) (o : DbOutcome) (idStr : String) :
    (uuidParse idStr = none →
      EventController.GetEventByID st o idStr = (httpError "Invalid UUID format" 400, false))
    ∧ (∀ id e, uuidParse idStr = some id →
        EventRepository.GetEventByID st o id = .error e →
        EventController.GetEventByID st o idStr = (httpError "Event not found" 404, true))
    ∧ (∀ id ev, uuidParse idStr = some id →
        EventRepository.GetEventByID st o id = .ok ev →
        EventController.GetEventByID st o idStr =
          (⟨200, some "application/json", encodeEvent ev⟩, true)) := by
  refine ⟨?_, ?_, ?_⟩
  · intro h
    unfold EventController.GetEventByID
    rw [h]
  · intro id e h1 h2
    simp [EventController.GetEventByID, h1, h2]
  · intro id ev h1 h2
    simp [EventController.GetEventByID, h1, h2]

/-- Witness for C4: a malformed identifier gives 400 with the repository
untouched; on a well-formed identifier a miss gives 404 and a hit 200. -/
theorem c4_get_by_id_status_mapping_witness :
    EventController.GetEventByID ⟨[], 0, 0⟩ .ok "not-a-uuid" =
      (httpError "Invalid UUID format" 400, false)
    ∧ EventController.GetEventByID ⟨[], 0, 0⟩ .ok
        "00000000-0000-0000-0000-000000000001" = (httpError "Event not found" 404, true)
    ∧ EventController.GetEventByID
        ⟨[⟨⟨1⟩, "t", none, ⟨1, "UTC"⟩, ⟨2, "UTC"⟩, ⟨0, "UTC"⟩, ⟨0, "UTC"⟩⟩], 5, 9⟩ .ok
        "00000000-0000-0000-0000-000000000001" =
        (⟨200, some "application/json",
          encodeEvent ⟨⟨1⟩, "t", none, ⟨1, "UTC"⟩, ⟨2, "UTC"⟩, ⟨0, "UTC"⟩, ⟨0, "UTC"⟩⟩⟩, true) :=
  ⟨(c4_get_by_id_status_mapping ⟨[], 0, 0⟩ .ok "not-a-uuid").1 rfl,
   (c4_get_by_id_status_mapping ⟨[], 0, 0⟩ .ok "00000000-0000-0000-0000-000000000001").2.1
     ⟨1⟩ (.errorf "event not found") rfl rfl,
   (c4_get_by_id_status_mapping
       ⟨[⟨⟨1⟩, "t", none, ⟨1, "UTC"⟩, ⟨2, "UTC"⟩, ⟨0, "UTC"⟩, ⟨0, "UTC"⟩⟩], 5, 9⟩ .ok
       "00000000-0000-0000-0000-000000000001").2.2
     ⟨1⟩ ⟨⟨1⟩, "t", none, ⟨1, "UTC"⟩, ⟨2, "UTC"⟩, ⟨0, "UTC"⟩, ⟨0, "UTC"⟩⟩ rfl rfl⟩

/-! ## Claim C2 -/

/-- Claim C2, as stated, is false: on a miss `GetEventByID` discards
`sql.ErrNoRows` and returns a fresh bare error carrying only the message
text "event not found".  No sentinel available to a caller — not
`sql.ErrNoRows`, nor the context sentinels, and the `internal` package
exports none of its own — matches it under `errors.Is`, so the caller has no
message-free test that recognizes the not-found condition. -/
theorem c2_not_found_no_sentinel_counterexample :
    EventRepository.GetEventByID ⟨[], 0, 0⟩ .ok ⟨5⟩ = .error (.errorf "event not found")
    ∧ (∀ s ∈ exportedSentinels, errorsIs (.errorf "event not found") s = false) := by
  refine ⟨rfl, ?_⟩
  decide

/-- Claim C2 amended: the only marker of the not-found condition is the
message text "event not found" of a bare, unwrapped error; the repository
neither wraps `sql.ErrNoRows` nor exports a sentinel, so `errors.Is` against
every sentinel in scope fails, while every other storage failure comes back
wrapped as "failed to get event by ID: %w".  (The handler accordingly never
distinguishes: it maps every repository error to 404.) -/
theorem c2_amended_not_found_message_only (st : DbState) (id : UUID)
    (h : st.rows.find? (fun r => r.ID == id) = none) :
    EventRepository.GetEventByID st .ok id = .error (.errorf "event not found")
    ∧ (∀ s ∈ exportedSentinels, errorsIs (.errorf "event not found") s = false)
    ∧ (∀ e, e ≠ sqlErrNoRows →
        EventRepository.GetEventByID st (.fail e) id =
          .error (.wrap "failed to get event by ID" e)) := by
  refine ⟨?_, by decide, ?_⟩
  · simp [EventRepository.GetEventByID, EventRepository.queryRowScan, h]
  · intro e he
    simp [EventRepository.GetEventByID, EventRepository.queryRowScan, he]

/-- Witness for the amended C2 at a concrete empty table and identifier. -/
theorem c2_amended_not_found_message_only_witness :
    EventRepository.GetEventByID ⟨[], 0, 0⟩ .ok ⟨7⟩ = .error (.errorf "event not found")
    ∧ (∀ s ∈ exportedSentinels, errorsIs (.errorf "event not found") s = false)
    ∧ (∀ e, e ≠ sqlErrNoRows →
        EventRepository.GetEventByID ⟨[], 0, 0⟩ (.fail e) ⟨7⟩ =
          .error (.wrap "failed to get event by ID" e)) :=
  c2_amended_not_found_message_only ⟨[], 0, 0⟩ ⟨7⟩ rfl

/-! ## Claim C10 -/

/-- Claim C10: the repository's insert depends only on `Title`, `Description`,
`StartTime` and `EndTime` — two input records agreeing on those four fields
produce the identical SQL parameters and the identical result, whatever their
`ID`, `CreatedAt` or `UpdatedAt` (in particular the handler's `uuid.New()` and
`time.Now()` values); and the record returned on success carries the
storage-generated identifier and timestamps. -/
theorem c10_repo_discards_caller_metadata (st : DbState) (o : DbOutcome) (e1 e2 : EventDB)
    (ht : e1.Title = e2.Title) (hd : e1.Description = e2.Description)
    (hs : e1.StartTime = e2.StartTime) (he : e1.EndTime = e2.EndTime) :
    EventRepository.createEventArgs e1 = EventRepository.createEventArgs e2
    ∧ EventRepository.CreateEvent st o e1 = EventRepository.CreateEvent st o e2
    ∧ (∀ st2 row, EventRepository.CreateEvent st .ok e1 = (st2, .ok row) →
        row.ID = ⟨st.nextId⟩ ∧ row.CreatedAt = ⟨st.now, "UTC"⟩
          ∧ row.UpdatedAt = ⟨st.now, "UTC"⟩) := by
  have hargs : EventRepository.createEventArgs e1 = EventRepository.createEventArgs e2 := by
    simp [EventRepository.createEventArgs, ht, hd, hs, he]
  refine ⟨hargs, ?_, ?_⟩
  · cases o with
    | fail e => rfl
    | ok => simp [EventRepository.CreateEvent, hargs]
  · intro st2 row hrow
    have h2 := congrArg (fun p => p.2) hrow
    simp only [EventRepository.CreateEvent, EventRepository.dbExecCreate] at h2
    cases h2
    exact ⟨rfl, rfl, rfl⟩

/-- Witness for C10: two inputs sharing the four client columns but with
different caller-supplied `ID`, `CreatedAt`, `UpdatedAt`. -/
theorem c10_repo_discards_caller_metadata_witness :
    EventRepository.createEventArgs
        ⟨⟨11⟩, "t", some "d", ⟨1, "UTC"⟩, ⟨2, "UTC"⟩, ⟨3, "UTC"⟩, ⟨3, "UTC"⟩⟩ =
      EventRepository.createEventArgs
        ⟨⟨22⟩, "t", some "d", ⟨1, "UTC"⟩, ⟨2, "UTC"⟩, ⟨4, "UTC"⟩, ⟨5, "UTC"⟩⟩
    ∧ EventRepository.CreateEvent ⟨[], 0, 10⟩ .ok
        ⟨⟨11⟩, "t", some "d", ⟨1, "UTC"⟩, ⟨2, "UTC"⟩, ⟨3, "UTC"⟩, ⟨3, "UTC"⟩⟩ =
      EventRepository.CreateEvent ⟨[], 0, 10⟩ .ok
        ⟨⟨22⟩, "t", some "d", ⟨1, "UTC"⟩, ⟨2, "UTC"⟩, ⟨4, "UTC"⟩, ⟨5, "UTC"⟩⟩
    ∧ (∀ st2 row, EventRepository.CreateEvent ⟨[], 0, 10⟩ .ok
          ⟨⟨11⟩, "t", some "d", ⟨1, "UTC"⟩, ⟨2, "UTC"⟩, ⟨3, "UTC"⟩, ⟨3, "UTC"⟩⟩ = (st2, .ok row) →
        row.ID = ⟨(0 : Nat)⟩ ∧ row.CreatedAt = ⟨10, "UTC"⟩ ∧ row.UpdatedAt = ⟨10, "UTC"⟩) :=
  c10_repo_discards_caller_metadata ⟨[], 0, 10⟩ .ok
    ⟨⟨11⟩, "t", some "d", ⟨1, "UTC"⟩, ⟨2, "UTC"⟩, ⟨3, "UTC"⟩, ⟨3, "UTC"⟩⟩
    ⟨⟨22⟩, "t", some "d", ⟨1, "UTC"⟩, ⟨2, "UTC"⟩, ⟨4, "UTC"⟩, ⟨5, "UTC"⟩⟩
    rfl rfl rfl rfl

/-! ## Create-path helper lemmas -/

/-- If any of the four validation checks fails, `CreateEvent` responds 400,
leaves the table untouched and never calls the repository. -/
theorem createEvent_reject (st : DbState) (env : CreateEnv) (inp : createEventInput)
    (h : goTrimSpace inp.Title = "" ∨ inp.Title.utf8ByteSize > 100 ∨
      (inp.StartTime.IsZero || inp.EndTime.IsZero) = true ∨
      inp.StartTime.Before inp.EndTime = false) :
    (EventController.CreateEvent st env (.ok inp)).resp.status = 400
    ∧ (EventController.CreateEvent st env (.ok inp)).db = st
    ∧ (EventController.CreateEvent st env (.ok inp)).repoCalled = false := by
  unfold EventController.CreateEvent
  by_cases h1 : goTrimSpace inp.Title = ""
  · simp [h1, httpError]
  by_cases h2 : inp.Title.utf8ByteSize > 100
  · simp [h1, h2, httpError]
  by_cases h3 : (inp.StartTime.IsZero || inp.EndTime.IsZero) = true
  · simp [h1, h2, h3, httpError]
  have h4 : inp.StartTime.Before inp.EndTime = false := by
    rcases h with h | h | h | h
    · exact absurd h h1
    · exact absurd h h2
    · exact absurd h h3
    · exact h
  simp [h1, h2, h3, h4, httpError]

/-- On an input passing all validation checks, with the database serving the
insert, `CreateEvent` persists exactly the storage-built row and responds 201
with it. -/
theorem createEvent_valid_ok (st : DbState) (env : CreateEnv) (inp : createEventInput)
    (h1 : goTrimSpace inp.Title ≠ "") (h2 : ¬ inp.Title.utf8ByteSize > 100)
    (h3 : inp.StartTime.IsZero = false) (h4 : inp.EndTime.IsZero = false)
    (h5 : inp.StartTime.Before inp.EndTime = true) (hok : env.dbOutcome = .ok) :
    EventController.CreateEvent st env (.ok inp) =
      ⟨⟨201, some "application/json",
          encodeEvent ⟨⟨st.nextId⟩, inp.Title, inp.Description, inp.StartTime.UTC,
            inp.EndTime.UTC, ⟨st.now, "UTC"⟩, ⟨st.now, "UTC"⟩⟩⟩,
        { rows := st.rows ++ [⟨⟨st.nextId⟩, inp.Title, inp.Description, inp.StartTime.UTC,
            inp.EndTime.UTC, ⟨st.now, "UTC"⟩, ⟨st.now, "UTC"⟩⟩],
          nextId := st.nextId + 1, now := st.now }, true⟩ := by
  simp only [EventController.CreateEvent]
  rw [if_neg h1, if_neg h2, if_neg (by simp [h3, h4]), if_neg (by simp [h5]), hok]
  rfl

/-- On an input passing all validation checks, with the database failing the
insert, `CreateEvent` responds 408 or 500 according to `ctx.Err()`, leaves the
table untouched, and has called the repository. -/
theorem createEvent_valid_fail (st : DbState) (env : CreateEnv) (inp : createEventInput)
    (e : GoError)
    (h1 : goTrimSpace inp.Title ≠ "") (h2 : ¬ inp.Title.utf8ByteSize > 100)
    (h3 : inp.StartTime.IsZero = false) (h4 : inp.EndTime.IsZero = false)
    (h5 : inp.StartTime.Before inp.EndTime = true) (hfail : env.dbOutcome = .fail e) :
    EventController.CreateEvent st env (.ok inp) =
      ⟨if env.ctxErr = some ctxDeadlineExceeded then httpError "Request timeout" 408
        else httpError "Failed to create event" 500, st, true⟩ := by
  simp only [EventController.CreateEvent]
  rw [if_neg h1, if_neg h2, if_neg (by simp [h3, h4]), if_neg (by simp [h5]), hfail]
  rfl

/-! ## Claim C3 -/

/-- Claim C3, as stated, is false: the handler's length check is Go `len`,
which counts UTF-8 bytes.  A title of 51 copies of the two-byte character
U+00E9 has 51 characters (within the stated 100-character limit) and is
otherwise valid, yet the handler rejects it at the length check with 400. -/
theorem c3_byte_limit_counterexample :
    (String.mk (List.replicate 51 'é')).length = 51
    ∧ (String.mk (List.replicate 51 'é')).utf8ByteSize = 102
    ∧ goTrimSpace (String.mk (List.replicate 51 'é')) ≠ ""
    ∧ (EventController.CreateEvent ⟨[], 0, 0⟩ ⟨⟨1⟩, 5, .ok, none⟩
        (.ok ⟨String.mk (List.replicate 51 'é'), none, ⟨10, "UTC"⟩, ⟨20, "UTC"⟩⟩)).resp
      = httpError "title must be <= 100 characters" 400 :=
  ⟨by decide, by decide, by decide, rfl⟩

/-- Claim C3 amended: the 100 limit is measured in UTF-8 bytes (Go `len`).
Any title over 100 bytes — in particular any title over 100 characters — is
rejected with 400, and any otherwise-valid title of at most 100 bytes passes
the length check (the response is never 400). -/
theorem c3_amended_title_limit_bytes (st : DbState) (env : CreateEnv) (inp : createEventInput) :
    (inp.Title.length > 100 →
      (EventController.CreateEvent st env (.ok inp)).resp.status = 400)
    ∧ (inp.Title.utf8ByteSize > 100 →
      (EventController.CreateEvent st env (.ok inp)).resp.status = 400)
    ∧ (inp.Title.utf8ByteSize ≤ 100 → goTrimSpace inp.Title ≠ "" →
        inp.StartTime.IsZero = false → inp.EndTime.IsZero = false →
        inp.StartTime.Before inp.EndTime = true →
        (EventController.CreateEvent st env (.ok inp)).resp.status ≠ 400) := by
  refine ⟨?_, ?_, ?_⟩
  · intro h
    have hb : inp.Title.utf8ByteSize > 100 :=
      lt_of_lt_of_le h (length_le_utf8ByteSize inp.Title)
    exact (createEvent_reject st env inp (Or.inr (Or.inl hb))).1
  · intro h
    exact (createEvent_reject st env inp (Or.inr (Or.inl h))).1
  · intro hb h1 h3 h4 h5
    cases hdb : env.dbOutcome with
    | ok =>
      rw [createEvent_valid_ok st env inp h1 (by omega) h3 h4 h5 hdb]
      simp
    | fail e =>
      rw [createEvent_valid_fail st env inp e h1 (by omega) h3 h4 h5 hdb]
      by_cases hc : env.ctxErr = some ctxDeadlineExceeded
      · simp [hc, httpError]
      · simp [hc, httpError]

/-- Witness for the amended C3: a 101-byte ASCII title is rejected and a
short otherwise-valid title is not. -/
theorem c3_amended_title_limit_bytes_witness :
    (EventController.CreateEvent ⟨[], 0, 0⟩ ⟨⟨1⟩, 5, .ok, none⟩
      (.ok ⟨String.mk (List.replicate 101 'x'), none, ⟨1, "UTC"⟩, ⟨2, "UTC"⟩⟩)).resp.status = 400
    ∧ (EventController.CreateEvent ⟨[], 0, 0⟩ ⟨⟨1⟩, 5, .ok, none⟩
      (.ok ⟨"ok title", none, ⟨1, "UTC"⟩, ⟨2, "UTC"⟩⟩)).resp.status ≠ 400 :=
  ⟨(c3_amended_title_limit_bytes ⟨[], 0, 0⟩ ⟨⟨1⟩, 5, .ok, none⟩
      ⟨String.mk (List.replicate 101 'x'), none, ⟨1, "UTC"⟩, ⟨2, "UTC"⟩⟩).1 (by decide),
   (c3_amended_title_limit_bytes ⟨[], 0, 0⟩ ⟨⟨1⟩, 5, .ok, none⟩
      ⟨"ok title", none, ⟨1, "UTC"⟩, ⟨2, "UTC"⟩⟩).2.2 (by decide) (by decide)
     (by decide) (by decide) (by decide)⟩

/-! ## Claim C5 -/

/-- Claim C5, as stated, is false for the same byte/character reason as C3: a
title of 34 copies of the three-byte character U+20AC is a valid creation
input by the claim's own conditions (34 characters, non-empty trimmed,
non-zero ordered timestamps) and the database would serve the insert, yet the
handler responds 400, not 201, and never calls the repository. -/
theorem c5_multibyte_title_counterexample :
    (String.mk (List.replicate 34 '€')).length = 34
    ∧ goTrimSpace (String.mk (List.replicate 34 '€')) ≠ ""
    ∧ GoTime.IsZero ⟨10, "UTC"⟩ = false ∧ GoTime.IsZero ⟨20, "UTC"⟩ = false
    ∧ GoTime.Before ⟨10, "UTC"⟩ ⟨20, "UTC"⟩ = true
    ∧ (EventController.CreateEvent ⟨[], 0, 0⟩ ⟨⟨1⟩, 5, .ok, none⟩
        (.ok ⟨String.mk (List.replicate 34 '€'), none, ⟨10, "UTC"⟩, ⟨20, "UTC"⟩⟩)).resp.status = 400
    ∧ (EventController.CreateEvent ⟨[], 0, 0⟩ ⟨⟨1⟩, 5, .ok, none⟩
        (.ok ⟨String.mk (List.replicate 34 '€'), none, ⟨10, "UTC"⟩, ⟨20, "UTC"⟩⟩)).repoCalled = false :=
  ⟨by decide, by decide, rfl, rfl, rfl, rfl, rfl⟩

/-- Claim C5 amended ("at most 100 chars" becomes "at most 100 bytes"): for
every creation input passing the handler's validation, served by the
database, the handler responds 201 with the persisted record as JSON; the
persisted record carries the storage-generated identifier — fresh relative to
every identifier already in the table — UTC-normalized start/end times, and
equal `created_at` and `updated_at`. -/
theorem c5_amended_create_success (st : DbState) (env : CreateEnv) (inp : createEventInput)
    (h1 : goTrimSpace inp.Title ≠ "") (h2 : inp.Title.utf8ByteSize ≤ 100)
    (h3 : inp.StartTime.IsZero = false) (h4 : inp.EndTime.IsZero = false)
    (h5 : inp.StartTime.Before inp.EndTime = true) (hok : env.dbOutcome = .ok)
    (hfresh : ∀ r ∈ st.rows, r.ID.val < st.nextId) :
    ∃ row : EventDB,
      EventController.CreateEvent st env (.ok inp) =
        ⟨⟨201, some "application/json", encodeEvent row⟩,
          { rows := st.rows ++ [row], nextId := st.nextId + 1, now := st.now }, true⟩
      ∧ row.ID ∉ st.rows.map EventDB.ID
      ∧ row.StartTime = inp.StartTime.UTC ∧ row.EndTime = inp.EndTime.UTC
      ∧ row.StartTime.loc = "UTC" ∧ row.EndTime.loc = "UTC"
      ∧ row.CreatedAt = row.UpdatedAt := by
  refine ⟨⟨⟨st.nextId⟩, inp.Title, inp.Description, inp.StartTime.UTC, inp.EndTime.UTC,
      ⟨st.now, "UTC"⟩, ⟨st.now, "UTC"⟩⟩,
    createEvent_valid_ok st env inp h1 (by omega) h3 h4 h5 hok, ?_, rfl, rfl, rfl, rfl, rfl⟩
  intro hmem
  rcases List.mem_map.mp hmem with ⟨r, hr, hid⟩
  have hlt := hfresh r hr
  have hv : r.ID.val = st.nextId := congrArg UUID.val hid
  omega

/-- Witness for the amended C5 on a concrete one-row table and a valid input
with non-UTC input locations. -/
theorem c5_amended_create_success_witness :
    ∃ row : EventDB,
      EventController.CreateEvent
          ⟨[⟨⟨0⟩, "old", none, ⟨1, "UTC"⟩, ⟨2, "UTC"⟩, ⟨0, "UTC"⟩, ⟨0, "UTC"⟩⟩], 1, 50⟩
          ⟨⟨9⟩, 40, .ok, none⟩
          (.ok ⟨"Go Conference", some "talks", ⟨10, "CET"⟩, ⟨20, "CET"⟩⟩) =
        ⟨⟨201, some "application/json", encodeEvent row⟩,
          { rows := [⟨⟨0⟩, "old", none, ⟨1, "UTC"⟩, ⟨2, "UTC"⟩, ⟨0, "UTC"⟩, ⟨0, "UTC"⟩⟩] ++ [row],
            nextId := 1 + 1, now := 50 }, true⟩
      ∧ row.ID ∉ [⟨⟨0⟩, "old", none, ⟨1, "UTC"⟩, ⟨2, "UTC"⟩,
          ⟨0, "UTC"⟩, ⟨0, "UTC"⟩⟩].map EventDB.ID
      ∧ row.StartTime = GoTime.UTC ⟨10, "CET"⟩ ∧ row.EndTime = GoTime.UTC ⟨20, "CET"⟩
      ∧ row.StartTime.loc = "UTC" ∧ row.EndTime.loc = "UTC"
      ∧ row.CreatedAt = row.UpdatedAt :=
  c5_amended_create_success
    ⟨[⟨⟨0⟩, "old", none, ⟨1, "UTC"⟩, ⟨2, "UTC"⟩, ⟨0, "UTC"⟩, ⟨0, "UTC"⟩⟩], 1, 50⟩
    ⟨⟨9⟩, 40, .ok, none⟩
    ⟨"Go Conference", some "talks", ⟨10, "CET"⟩, ⟨20, "CET"⟩⟩
    (by decide) (by decide) rfl rfl rfl rfl (by decide)

/-! ## Claim C7 -/

/-- Claim C7: a Create request whose `start_time` is not strictly before its
`end_time` (equality included) is rejected with 400, the table unchanged and
the repository never called; and every row the Create path ever adds to the
table satisfies `start_time < end_time` strictly. -/
theorem c7_start_before_end_invariant (st : DbState) (env : CreateEnv)
    (body : Except String createEventInput) (inp : createEventInput)
    (hge : inp.StartTime.Before inp.EndTime = false) :
    ((EventController.CreateEvent st env (.ok inp)).resp.status = 400
      ∧ (EventController.CreateEvent st env (.ok inp)).db = st
      ∧ (EventController.CreateEvent st env (.ok inp)).repoCalled = false)
    ∧ (∀ r ∈ (EventController.CreateEvent st env body).db.rows,
        r ∈ st.rows ∨ r.StartTime.instant < r.EndTime.instant) := by
  refine ⟨createEvent_reject st env inp (Or.inr (Or.inr (Or.inr hge))), ?_⟩
  intro r hr
  cases body with
  | error msg => exact Or.inl hr
  | ok inp2 =>
    by_cases h1 : goTrimSpace inp2.Title = ""
    · rw [(createEvent_reject st env inp2 (Or.inl h1)).2.1] at hr
      exact Or.inl hr
    by_cases h2 : inp2.Title.utf8ByteSize > 100
    · rw [(createEvent_reject st env inp2 (Or.inr (Or.inl h2))).2.1] at hr
      exact Or.inl hr
    by_cases h3 : (inp2.StartTime.IsZero || inp2.EndTime.IsZero) = true
    · rw [(createEvent_reject st env inp2 (Or.inr (Or.inr (Or.inl h3)))).2.1] at hr
      exact Or.inl hr
    by_cases h5 : inp2.StartTime.Before inp2.EndTime = true
    · simp only [Bool.or_eq_true, not_or, Bool.not_eq_true] at h3
      cases hdb : env.dbOutcome with
      | ok =>
        rw [createEvent_valid_ok st env inp2 h1 h2 h3.1 h3.2 h5 hdb] at hr
        have hr2 : r ∈ st.rows ++ [⟨⟨st.nextId⟩, inp2.Title, inp2.Description,
            inp2.StartTime.UTC, inp2.EndTime.UTC, ⟨st.now, "UTC"⟩, ⟨st.now, "UTC"⟩⟩] := hr
        rcases List.mem_append.mp hr2 with hmem | hmem
        · exact Or.inl hmem
        · have hreq : r = ⟨⟨st.nextId⟩, inp2.Title, inp2.Description,
              inp2.StartTime.UTC, inp2.EndTime.UTC, ⟨st.now, "UTC"⟩, ⟨st.now, "UTC"⟩⟩ := by
            simpa using hmem
          subst hreq
          right
          simp only [GoTime.Before, decide_eq_true_eq] at h5
          simpa [GoTime.UTC] using h5
      | fail e =>
        rw [createEvent_valid_fail st env inp2 e h1 h2 h3.1 h3.2 h5 hdb] at hr
        exact Or.inl hr
    · have h5f : inp2.StartTime.Before inp2.EndTime = false := by
        cases hb : inp2.StartTime.Before inp2.EndTime with
        | true => exact absurd hb h5
        | false => rfl
      rw [(createEvent_reject st env inp2 (Or.inr (Or.inr (Or.inr h5f)))).2.1] at hr
      exact Or.inl hr

/-- Witness for C7: a request with `start_time = end_time` against a concrete
one-row table. -/
theorem c7_start_before_end_invariant_witness :
    ((EventController.CreateEvent ⟨[⟨⟨0⟩, "old", none, ⟨1, "UTC"⟩, ⟨2, "UTC"⟩, ⟨0, "UTC"⟩,
        ⟨0, "UTC"⟩⟩], 1, 50⟩ ⟨⟨9⟩, 40, .ok, none⟩
        (.ok ⟨"same times", none, ⟨20, "UTC"⟩, ⟨20, "UTC"⟩⟩)).resp.status = 400
      ∧ (EventController.CreateEvent ⟨[⟨⟨0⟩, "old", none, ⟨1, "UTC"⟩, ⟨2, "UTC"⟩, ⟨0, "UTC"⟩,
        ⟨0, "UTC"⟩⟩], 1, 50⟩ ⟨⟨9⟩, 40, .ok, none⟩
        (.ok ⟨"same times", none, ⟨20, "UTC"⟩, ⟨20, "UTC"⟩⟩)).db =
          ⟨[⟨⟨0⟩, "old", none, ⟨1, "UTC"⟩, ⟨2, "UTC"⟩, ⟨0, "UTC"⟩, ⟨0, "UTC"⟩⟩], 1, 50⟩
      ∧ (EventController.CreateEvent ⟨[⟨⟨0⟩, "old", none, ⟨1, "UTC"⟩, ⟨2, "UTC"⟩, ⟨0, "UTC"⟩,
        ⟨0, "UTC"⟩⟩], 1, 50⟩ ⟨⟨9⟩, 40, .ok, none⟩
        (.ok ⟨"same times", none, ⟨20, "UTC"⟩, ⟨20, "UTC"⟩⟩)).repoCalled = false)
    ∧ (∀ r ∈ (EventController.CreateEvent ⟨[⟨⟨0⟩, "old", none, ⟨1, "UTC"⟩, ⟨2, "UTC"⟩, ⟨0, "UTC"⟩,
        ⟨0, "UTC"⟩⟩], 1, 50⟩ ⟨⟨9⟩, 40, .ok, none⟩
        (.ok ⟨"same times", none, ⟨20, "UTC"⟩, ⟨20, "UTC"⟩⟩)).db.rows,
        r ∈ [⟨⟨0⟩, "old", none, ⟨1, "UTC"⟩, ⟨2, "UTC"⟩, ⟨0, "UTC"⟩, ⟨0, "UTC"⟩⟩]
          ∨ r.StartTime.instant < r.EndTime.instant) :=
  c7_start_before_end_invariant
    ⟨[⟨⟨0⟩, "old", none, ⟨1, "UTC"⟩, ⟨2, "UTC"⟩, ⟨0, "UTC"⟩, ⟨0, "UTC"⟩⟩], 1, 50⟩
    ⟨⟨9⟩, 40, .ok, none⟩
    (.ok ⟨"same times", none, ⟨20, "UTC"⟩, ⟨20, "UTC"⟩⟩)
    ⟨"same times", none, ⟨20, "UTC"⟩, ⟨20, "UTC"⟩⟩
    (by decide)

/-! ## Claim C8 -/

/-- Claim C8: every Create request failing validation — body that fails JSON
decoding (malformed or unknown-field), empty/whitespace-only title, over-long
title, a zero-valued timestamp, or `start_time >= end_time` — is answered 400
with the table unchanged and the repository never called. -/
theorem c8_validation_before_storage (st : DbState) (env : CreateEnv) :
    (∀ msg, EventController.CreateEvent st env (.error msg) =
      ⟨httpError ("invalid JSON: " ++ msg) 400, st, false⟩)
    ∧ (∀ inp, goTrimSpace inp.Title = "" →
        (EventController.CreateEvent st env (.ok inp)).resp.status = 400
        ∧ (EventController.CreateEvent st env (.ok inp)).db = st
        ∧ (EventController.CreateEvent st env (.ok inp)).repoCalled = false)
    ∧ (∀ inp, inp.Title.utf8ByteSize > 100 →
        (EventController.CreateEvent st env (.ok inp)).resp.status = 400
        ∧ (EventController.CreateEvent st env (.ok inp)).db = st
        ∧ (EventController.CreateEvent st env (.ok inp)).repoCalled = false)
    ∧ (∀ inp, inp.StartTime.IsZero = true ∨ inp.EndTime.IsZero = true →
        (EventController.CreateEvent st env (.ok inp)).resp.status = 400
        ∧ (EventController.CreateEvent st env (.ok inp)).db = st
        ∧ (EventController.CreateEvent st env (.ok inp)).repoCalled = false)
    ∧ (∀ inp, inp.StartTime.Before inp.EndTime = false →
        (EventController.CreateEvent st env (.ok inp)).resp.status = 400
        ∧ (EventController.CreateEvent st env (.ok inp)).db = st
        ∧ (EventController.CreateEvent st env (.ok inp)).repoCalled = false) :=
  ⟨fun _ => rfl,
   fun inp h => createEvent_reject st env inp (Or.inl h),
   fun inp h => createEvent_reject st env inp (Or.inr (Or.inl h)),
   fun inp h => createEvent_reject st env inp
     (Or.inr (Or.inr (Or.inl (by rcases h with h | h <;> simp [h])))),
   fun inp h => createEvent_reject st env inp (Or.inr (Or.inr (Or.inr h)))⟩

/-- Witness for C8: one concrete rejected request per validation rule. -/
theorem c8_validation_before_storage_witness :
    EventController.CreateEvent ⟨[], 0, 0⟩ ⟨⟨1⟩, 5, .ok, none⟩ (.error "unknown field") =
      ⟨httpError ("invalid JSON: " ++ "unknown field") 400, ⟨[], 0, 0⟩, false⟩
    ∧ ((EventController.CreateEvent ⟨[], 0, 0⟩ ⟨⟨1⟩, 5, .ok, none⟩
        (.ok ⟨"   ", none, ⟨1, "UTC"⟩, ⟨2, "UTC"⟩⟩)).resp.status = 400
      ∧ (EventController.CreateEvent ⟨[], 0, 0⟩ ⟨⟨1⟩, 5, .ok, none⟩
        (.ok ⟨"   ", none, ⟨1, "UTC"⟩, ⟨2, "UTC"⟩⟩)).db = ⟨[], 0, 0⟩
      ∧ (EventController.CreateEvent ⟨[], 0, 0⟩ ⟨⟨1⟩, 5, .ok, none⟩
        (.ok ⟨"   ", none, ⟨1, "UTC"⟩, ⟨2, "UTC"⟩⟩)).repoCalled = false)
    ∧ ((EventController.CreateEvent ⟨[], 0, 0⟩ ⟨⟨1⟩, 5, .ok, none⟩
        (.ok ⟨String.mk (List.replicate 101 'y'), none, ⟨1, "UTC"⟩, ⟨2, "UTC"⟩⟩)).resp.status = 400
      ∧ (EventController.CreateEvent ⟨[], 0, 0⟩ ⟨⟨1⟩, 5, .ok, none⟩
        (.ok ⟨String.mk (List.replicate 101 'y'), none, ⟨1, "UTC"⟩, ⟨2, "UTC"⟩⟩)).db = ⟨[], 0, 0⟩
      ∧ (EventController.CreateEvent ⟨[], 0, 0⟩ ⟨⟨1⟩, 5, .ok, none⟩
        (.ok ⟨String.mk (List.replicate 101 'y'), none, ⟨1, "UTC"⟩, ⟨2, "UTC"⟩⟩)).repoCalled = false)
    ∧ ((EventController.CreateEvent ⟨[], 0, 0⟩ ⟨⟨1⟩, 5, .ok, none⟩
        (.ok ⟨"zero start", none, ⟨0, "UTC"⟩, ⟨2, "UTC"⟩⟩)).resp.status = 400
      ∧ (EventController.CreateEvent ⟨[], 0, 0⟩ ⟨⟨1⟩, 5, .ok, none⟩
        (.ok ⟨"zero start", none, ⟨0, "UTC"⟩, ⟨2, "UTC"⟩⟩)).db = ⟨[], 0, 0⟩
      ∧ (EventController.CreateEvent ⟨[], 0, 0⟩ ⟨⟨1⟩, 5, .ok, none⟩
        (.ok ⟨"zero start", none, ⟨0, "UTC"⟩, ⟨2, "UTC"⟩⟩)).repoCalled = false)
    ∧ ((EventController.CreateEvent ⟨[], 0, 0⟩ ⟨⟨1⟩, 5, .ok, none⟩
        (.ok ⟨"backwards", none, ⟨9, "UTC"⟩, ⟨3, "UTC"⟩⟩)).resp.status = 400
      ∧ (EventController.CreateEvent ⟨[], 0, 0⟩ ⟨⟨1⟩, 5, .ok, none⟩
        (.ok ⟨"backwards", none, ⟨9, "UTC"⟩, ⟨3, "UTC"⟩⟩)).db = ⟨[], 0, 0⟩
      ∧ (EventController.CreateEvent ⟨[], 0, 0⟩ ⟨⟨1⟩, 5, .ok, none⟩
        (.ok ⟨"backwards", none, ⟨9, "UTC"⟩, ⟨3, "UTC"⟩⟩)).repoCalled = false) :=
  ⟨(c8_validation_before_storage ⟨[], 0, 0⟩ ⟨⟨1⟩, 5, .ok, none⟩).1 "unknown field",
   (c8_validation_before_storage ⟨[], 0, 0⟩ ⟨⟨1⟩, 5, .ok, none⟩).2.1
     ⟨"   ", none, ⟨1, "UTC"⟩, ⟨2, "UTC"⟩⟩ (by decide),
   (c8_validation_before_storage ⟨[], 0, 0⟩ ⟨⟨1⟩, 5, .ok, none⟩).2.2.1
     ⟨String.mk (List.replicate 101 'y'), none, ⟨1, "UTC"⟩, ⟨2, "UTC"⟩⟩ (by decide),
   (c8_validation_before_storage ⟨[], 0, 0⟩ ⟨⟨1⟩, 5, .ok, none⟩).2.2.2.1
     ⟨"zero start", none, ⟨0, "UTC"⟩, ⟨2, "UTC"⟩⟩ (Or.inl rfl),
   (c8_validation_before_storage ⟨[], 0, 0⟩ ⟨⟨1⟩, 5, .ok, none⟩).2.2.2.2
     ⟨"backwards", none, ⟨9, "UTC"⟩, ⟨3, "UTC"⟩⟩ (by decide)⟩

/-! ## Claim C9 -/

/-- Claim C9: on Create and List, when the repository call fails and the
request context reports deadline exceeded the handler responds 408; when the
repository fails and the context reports anything else the handler responds
500. -/
theorem c9_timeout_maps_408_else_500 (st : DbState) (env : CreateEnv)
    (inp : createEventInput) (e : GoError)
    (h1 : goTrimSpace inp.Title ≠ "") (h2 : inp.Title.utf8ByteSize ≤ 100)
    (h3 : inp.StartTime.IsZero = false) (h4 : inp.EndTime.IsZero = false)
    (h5 : inp.StartTime.Before inp.EndTime = true)
    (hfail : env.dbOutcome = .fail e) :
    (env.ctxErr = some ctxDeadlineExceeded →
      (EventController.CreateEvent st env (.ok inp)).resp.status = 408
      ∧ (EventController.GetEvents st (.fail e) env.ctxErr).status = 408)
    ∧ (env.ctxErr ≠ some ctxDeadlineExceeded →
      (EventController.CreateEvent st env (.ok inp)).resp.status = 500
      ∧ (EventController.GetEvents st (.fail e) env.ctxErr).status = 500) := by
  rw [createEvent_valid_fail st env inp e h1 (by omega) h3 h4 h5 hfail]
  constructor
  · intro hc
    simp [hc, EventController.GetEvents, EventRepository.GetEvents, httpError]
  · intro hc
    simp [hc, EventController.GetEvents, EventRepository.GetEvents, httpError]

/-- Witness for C9: a concrete failed repository call under an expired
deadline (408) and under a still-live context (500), on both paths. -/
theorem c9_timeout_maps_408_else_500_witness :
    ((EventController.CreateEvent ⟨[], 0, 0⟩
        ⟨⟨1⟩, 5, .fail (.errorf "boom"), some ctxDeadlineExceeded⟩
        (.ok ⟨"valid title", none, ⟨1, "UTC"⟩, ⟨2, "UTC"⟩⟩)).resp.status = 408
      ∧ (EventController.GetEvents ⟨[], 0, 0⟩ (.fail (.errorf "boom"))
          (some ctxDeadlineExceeded)).status = 408)
    ∧ ((EventController.CreateEvent ⟨[], 0, 0⟩
        ⟨⟨1⟩, 5, .fail (.errorf "boom"), none⟩
        (.ok ⟨"valid title", none, ⟨1, "UTC"⟩, ⟨2, "UTC"⟩⟩)).resp.status = 500
      ∧ (EventController.GetEvents ⟨[], 0, 0⟩ (.fail (.errorf "boom"))
          (none : Option GoError)).status = 500) :=
  ⟨(c9_timeout_maps_408_else_500 ⟨[], 0, 0⟩
      ⟨⟨1⟩, 5, .fail (.errorf "boom"), some ctxDeadlineExceeded⟩
      ⟨"valid title", none, ⟨1, "UTC"⟩, ⟨2, "UTC"⟩⟩ (.errorf "boom")
      (by decide) (by decide) rfl rfl rfl rfl).1 rfl,
   (c9_timeout_maps_408_else_500 ⟨[], 0, 0⟩
      ⟨⟨1⟩, 5, .fail (.errorf "boom"), none⟩
      ⟨"valid title", none, ⟨1, "UTC"⟩, ⟨2, "UTC"⟩⟩ (.errorf "boom")
      (by decide) (by decide) rfl rfl rfl rfl).2 (by decide)⟩
